import Mathlib

/-!
Shallow embedding of the session & flow orchestration core of the
StudyBuddy WhatsApp bot (`app/services/session_manager.py` and
`app/utils/rate_limit.py`), together with theorems settling the frozen
claims about it.

Conventions of the embedding:
* Python mutation of a session becomes explicit state passing: each
  method body is a pure function `UserSession → ... → UserSession`
  (paired with the method's return value where it has one).
* `datetime.date` values are modelled by `PyDate`: the proleptic
  ordinal (`date.toordinal()`, so `(d2 - d1).days = d2.ord - d1.ord`)
  together with the `month` and `year` fields the code reads.  For
  valid calendar dates the ordinal determines month and year, and
  Python date equality is equality of all components.
* `time.time()` timestamps are modelled as integers; the rate limiter
  only subtracts and compares them, which integer arithmetic models
  exactly.
* Python dicts keyed by user id become functions `String → Option _`;
  the quiz-question / flashcard dicts become structures holding the
  fields the code reads (`q.get("correct", "")` is total on the
  structure, matching the dict-with-default read).
-/

/-- A chat-history entry: `{"role": role, "content": content}`
(`session_manager.py` line 91). -/
structure Msg where
  role : String
  content : String
deriving DecidableEq

/-- A quiz question dict; `answer_quiz` reads only the `"correct"` key
(with default `""`), modelled by the `correct` field. -/
structure QuizQ where
  question : String
  options : List String
  correct : String
deriving DecidableEq

/-- A flashcard dict (front/back pair). -/
structure Card where
  front : String
  back : String
deriving DecidableEq

/-- A Python `datetime.date`: proleptic ordinal plus the `month` and
`year` projections used by `ConversationTracker`. -/
structure PyDate where
  ord : Int
  month : Nat
  year : Nat
deriving DecidableEq

/-- The per-user session state, `UserSession.__init__`
(`session_manager.py` lines 10-43). -/
structure UserSession where
  phone : String
  first_visit : Bool
  media_id : Option String
  filename : Option String
  doc_text_chunks : Option (List String)
  language : String
  chat_history : List Msg
  max_history : Nat
  quiz_questions : List QuizQ
  quiz_index : Nat
  quiz_score : Nat
  quiz_active : Bool
  flashcards : List Card
  flash_index : Nat
  flash_active : Bool
  flash_revealed : Bool
  docs_processed : Nat
  last_activity_date : Option PyDate
  streak : Nat
deriving DecidableEq

/-- A fresh session, with the defaults of `UserSession.__init__`. -/
def UserSession.init (phone : String) : UserSession :=
  { phone := phone
    first_visit := true
    media_id := none
    filename := none
    doc_text_chunks := none
    language := "English"
    chat_history := []
    max_history := 20
    quiz_questions := []
    quiz_index := 0
    quiz_score := 0
    quiz_active := false
    flashcards := []
    flash_index := 0
    flash_active := false
    flash_revealed := false
    docs_processed := 0
    last_activity_date := none
    streak := 0 }

/-- `SessionManager.store_document` body (lines 67-71): store the media
reference and filename and reset the cached chunks for the new doc. -/
def UserSession.store_document (s : UserSession) (media_id filename : String) :
    UserSession :=
  { s with media_id := some media_id, filename := some filename,
           doc_text_chunks := none }

/-- `SessionManager.store_chunks` body (lines 73-74). -/
def UserSession.store_chunks (s : UserSession) (chunks : List String) :
    UserSession :=
  { s with doc_text_chunks := some chunks }

/-- `SessionManager.set_language` body (lines 81-82). -/
def UserSession.set_language (s : UserSession) (language : String) :
    UserSession :=
  { s with language := language }

/-- `SessionManager.add_message` body (lines 88-94): append, then trim
to the last `max_history` entries.  Python's `hist[-n:]` for `n ≥ 1`
keeps the last `n` elements, i.e. drops `len - n` from the front; the
trim only runs when `len > max_history` (and `max_history` is 20). -/
def UserSession.add_message (s : UserSession) (role content : String) :
    UserSession :=
  let h := s.chat_history ++ [{ role := role, content := content }]
  if s.max_history < h.length then
    { s with chat_history := h.drop (h.length - s.max_history) }
  else
    { s with chat_history := h }

/-- `SessionManager.clear_history` body (lines 100-101). -/
def UserSession.clear_history (s : UserSession) : UserSession :=
  { s with chat_history := [] }

/-- `SessionManager.start_quiz` body (lines 104-109). -/
def UserSession.start_quiz (s : UserSession) (questions : List QuizQ) :
    UserSession :=
  { s with quiz_questions := questions, quiz_index := 0, quiz_score := 0,
           quiz_active := true }

/-- `SessionManager.get_current_question` body (lines 111-115). -/
def UserSession.get_current_question (s : UserSession) : Option QuizQ :=
  s.quiz_questions[s.quiz_index]?

/-- Python's `str.upper()` as used on the answer letters: per-character
ASCII upcasing, written structurally (char-list map) so that proofs can
evaluate it on concrete answers. -/
def pyUpper (s : String) : String :=
  ⟨s.data.map Char.toUpper⟩

/-- `SessionManager.answer_quiz` body (lines 117-136).  Returns the
mutated session together with `(is_correct, correct_answer, is_last)`. -/
def UserSession.answer_quiz (s : UserSession) (answer : String) :
    UserSession × Bool × String × Bool :=
  if s.quiz_active = false ∨ s.quiz_questions.length ≤ s.quiz_index then
    (s, false, "", true)
  else
    let q := s.quiz_questions.getD s.quiz_index
      { question := "", options := [], correct := "" }
    let correct := pyUpper q.correct
    let is_correct : Bool := pyUpper answer == correct
    let s₁ := if is_correct then { s with quiz_score := s.quiz_score + 1 } else s
    let s₂ := { s₁ with quiz_index := s₁.quiz_index + 1 }
    let is_last : Bool := decide (s₂.quiz_questions.length ≤ s₂.quiz_index)
    let s₃ := if is_last then { s₂ with quiz_active := false } else s₂
    (s₃, is_correct, correct, is_last)

/-- `SessionManager.start_flashcards` body (lines 147-152). -/
def UserSession.start_flashcards (s : UserSession) (cards : List Card) :
    UserSession :=
  { s with flashcards := cards, flash_index := 0, flash_active := true,
           flash_revealed := false }

/-- `SessionManager.get_current_flashcard` body (lines 154-158). -/
def UserSession.get_current_flashcard (s : UserSession) : Option Card :=
  s.flashcards[s.flash_index]?

/-- `SessionManager.reveal_flashcard` body (lines 160-161). -/
def UserSession.reveal_flashcard (s : UserSession) : UserSession :=
  { s with flash_revealed := true }

/-- `SessionManager.next_flashcard` body (lines 163-171).  Returns the
mutated session with the `bool` (`True` iff more cards remain). -/
def UserSession.next_flashcard (s : UserSession) : UserSession × Bool :=
  let s₁ := { s with flash_index := s.flash_index + 1, flash_revealed := false }
  if s₁.flashcards.length ≤ s₁.flash_index then
    ({ s₁ with flash_active := false }, false)
  else
    (s₁, true)

/-- `SessionManager.record_activity` body (lines 174-190), with
`date.today()` passed explicitly.  `docs_processed` is incremented
unconditionally (line 179) before the streak branch; `(today - d).days`
is the ordinal difference. -/
def UserSession.record_activity (s : UserSession) (today : PyDate) :
    UserSession :=
  let s₁ := { s with docs_processed := s.docs_processed + 1 }
  let s₂ :=
    match s₁.last_activity_date with
    | none => { s₁ with streak := 1 }
    | some d =>
      if d = today then s₁                           -- already counted today
      else if today.ord - d.ord = 1 then { s₁ with streak := s₁.streak + 1 }
      else { s₁ with streak := 1 }                   -- reset streak
  { s₂ with last_activity_date := some today }

/-- Update one key of a string-keyed map (Python `dict[key] = value`). -/
def updMap {α : Type} (f : String → Option α) (key : String) (v : α) :
    String → Option α :=
  fun q => if q = key then some v else f q

/-- The `SessionManager._sessions` dict: user id → stored session. -/
def SMgr : Type := String → Option UserSession

/-- A manager with no sessions (`SessionManager.__init__`, line 50). -/
def SMgr.empty : SMgr := fun _ => none

/-- The session `SessionManager.get` returns for `phone` (lines 52-56):
the stored one, or a fresh `UserSession(phone)`. -/
def SMgr.getSession (m : SMgr) (phone : String) : UserSession :=
  (m phone).getD (UserSession.init phone)

/-- Store a (possibly new) session under `phone`; `get` inserts the
session it returns, and mutating a method stores the mutated session. -/
def SMgr.update (m : SMgr) (phone : String) (u : UserSession) : SMgr :=
  updMap m phone u

/-- The common `get`-then-mutate pattern of every `SessionManager`
method: fetch-or-create the session, apply the body, store it back. -/
def SMgr.withSession (m : SMgr) (phone : String)
    (f : UserSession → UserSession) : SMgr :=
  m.update phone (f (m.getSession phone))

/-- `SessionManager.is_first_visit` (lines 58-64): true exactly once.
`get` inserts the session in both branches. -/
def SMgr.is_first_visit (m : SMgr) (phone : String) : SMgr × Bool :=
  let s := m.getSession phone
  if s.first_visit then
    (m.update phone { s with first_visit := false }, true)
  else
    (m.update phone s, false)

/-- `SessionManager.store_document` at the manager level. -/
def SMgr.store_document (m : SMgr) (phone media_id filename : String) : SMgr :=
  m.withSession phone (fun s => s.store_document media_id filename)

/-- `SessionManager.store_chunks` at the manager level. -/
def SMgr.store_chunks (m : SMgr) (phone : String) (chunks : List String) :
    SMgr :=
  m.withSession phone (fun s => s.store_chunks chunks)

/-- `SessionManager.set_language` at the manager level. -/
def SMgr.set_language (m : SMgr) (phone language : String) : SMgr :=
  m.withSession phone (fun s => s.set_language language)

/-- `SessionManager.add_message` at the manager level. -/
def SMgr.add_message (m : SMgr) (phone role content : String) : SMgr :=
  m.withSession phone (fun s => s.add_message role content)

/-- `SessionManager.get_history` (lines 96-98), a pure read. -/
def SMgr.get_history (m : SMgr) (phone : String) : List Msg :=
  (m.getSession phone).chat_history

/-- `SessionManager.clear_history` at the manager level (lines 100-101). -/
def SMgr.clear_history (m : SMgr) (phone : String) : SMgr :=
  m.withSession phone UserSession.clear_history

/-- `SessionManager.start_quiz` at the manager level. -/
def SMgr.start_quiz (m : SMgr) (phone : String) (questions : List QuizQ) :
    SMgr :=
  m.withSession phone (fun s => s.start_quiz questions)

/-- `SessionManager.answer_quiz` at the manager level. -/
def SMgr.answer_quiz (m : SMgr) (phone answer : String) :
    SMgr × Bool × String × Bool :=
  let r := (m.getSession phone).answer_quiz answer
  (m.update phone r.1, r.2)

/-- `SessionManager.start_flashcards` at the manager level. -/
def SMgr.start_flashcards (m : SMgr) (phone : String) (cards : List Card) :
    SMgr :=
  m.withSession phone (fun s => s.start_flashcards cards)

/-- `SessionManager.reveal_flashcard` at the manager level. -/
def SMgr.reveal_flashcard (m : SMgr) (phone : String) : SMgr :=
  m.withSession phone UserSession.reveal_flashcard

/-- `SessionManager.next_flashcard` at the manager level. -/
def SMgr.next_flashcard (m : SMgr) (phone : String) : SMgr × Bool :=
  let r := (m.getSession phone).next_flashcard
  (m.update phone r.1, r.2)

/-- `SessionManager.record_activity` at the manager level. -/
def SMgr.record_activity (m : SMgr) (phone : String) (today : PyDate) : SMgr :=
  m.withSession phone (fun s => s.record_activity today)

/-- `ConversationTracker` state (`session_manager.py` lines 256-270). -/
structure ConversationTracker where
  monthly_limit : Nat
  current_month : Nat
  current_year : Nat
  daily_users : String → Option PyDate
  conversation_count : Nat

/-- `ConversationTracker._reset_if_new_month` (lines 272-280), with
`date.today()` passed explicitly. -/
def ConversationTracker.reset_if_new_month (t : ConversationTracker)
    (today : PyDate) : ConversationTracker :=
  if today.month ≠ t.current_month ∨ today.year ≠ t.current_year then
    { t with current_month := today.month, current_year := today.year,
             daily_users := fun _ => none, conversation_count := 0 }
  else t

/-- `ConversationTracker.is_allowed` (lines 282-301).  `dict.get` of an
absent key is `None`, and `None == today` is false, so the same-day
branch fires exactly when the stored date equals today. -/
def ConversationTracker.is_allowed (t : ConversationTracker) (phone : String)
    (today : PyDate) : ConversationTracker × Bool :=
  let t := t.reset_if_new_month today
  if t.daily_users phone = some today then
    (t, true)                                  -- same user, same day
  else if t.monthly_limit ≤ t.conversation_count then
    (t, false)
  else
    ({ t with daily_users := updMap t.daily_users phone today,
              conversation_count := t.conversation_count + 1 }, true)

/-- `RateLimiter` state (`rate_limit.py` lines 4-13): per-user
`(count, first_request_timestamp)`. -/
structure RateLimiter where
  limit : Nat
  window_seconds : Int
  store : String → Option (Nat × Int)

/-- `RateLimiter.is_allowed` (`rate_limit.py` lines 15-35), with
`time.time()` passed explicitly as `now`. -/
def RateLimiter.is_allowed (rl : RateLimiter) (user_id : String) (now : Int) :
    RateLimiter × Bool :=
  match rl.store user_id with
  | none => ({ rl with store := updMap rl.store user_id (1, now) }, true)
  | some (count, first_req_time) =>
    if rl.window_seconds < now - first_req_time then
      -- the window has expired, reset
      ({ rl with store := updMap rl.store user_id (1, now) }, true)
    else if count < rl.limit then
      -- below limit in window
      ({ rl with store := updMap rl.store user_id (count + 1, first_req_time) },
       true)
    else
      (rl, false)

/-! ### Characterization lemmas -/

/-- `record_activity` in closed form: total always increments, the date
is always stamped, and the streak follows the branch structure. -/
theorem record_activity_eq (s : UserSession) (today : PyDate) :
    s.record_activity today =
      { s with
        docs_processed := s.docs_processed + 1
        last_activity_date := some today
        streak :=
          match s.last_activity_date with
          | none => 1
          | some d =>
            if d = today then s.streak
            else if today.ord - d.ord = 1 then s.streak + 1
            else 1 } := by
  unfold UserSession.record_activity
  cases h : s.last_activity_date
  · simp [h]
  · simp only [h]
    split_ifs <;> simp

/-- C1 (counterexample): a same-day repeat `record_activity` call does
change the total activity count — calling twice on one day on a fresh
session yields `docs_processed = 2`, not the first call's `1`. -/
theorem record_activity_same_day_increments_total :
    (((UserSession.init "u").record_activity ⟨738886, 2, 2025⟩).record_activity
        ⟨738886, 2, 2025⟩).docs_processed ≠
      ((UserSession.init "u").record_activity ⟨738886, 2, 2025⟩).docs_processed := by
  decide

/-- C1 (amended): `record_activity` sets `last_activity_date` to today
on every call and increments `docs_processed` on every call (also on a
same-day repeat, which leaves only the streak unchanged); a first call
sets streak 1, a next-calendar-day call increments the streak, and a
call after a gap of two or more days resets the streak to 1. -/
theorem record_activity_streak_spec (s : UserSession) (today : PyDate) :
    (s.record_activity today).docs_processed = s.docs_processed + 1 ∧
    (s.record_activity today).last_activity_date = some today ∧
    (s.last_activity_date = none → (s.record_activity today).streak = 1) ∧
    (s.last_activity_date = some today →
      (s.record_activity today).streak = s.streak) ∧
    (∀ d, s.last_activity_date = some d → d ≠ today → today.ord - d.ord = 1 →
      (s.record_activity today).streak = s.streak + 1) ∧
    (∀ d, s.last_activity_date = some d → d ≠ today → today.ord - d.ord ≠ 1 →
      (s.record_activity today).streak = 1) := by
  have e := record_activity_eq s today
  refine ⟨?_, ?_, ?_, ?_, ?_, ?_⟩
  · rw [e]
  · rw [e]
  · intro h; rw [e]; simp [h]
  · intro h; rw [e]; simp [h]
  · intro d h hne hdiff; rw [e]; simp [h, hne, hdiff]
  · intro d h hne hdiff; rw [e]; simp [h, hne, hdiff]

/-- Witness for the amended C1 theorem: concrete runs exercising the
fresh, same-day, next-day and gap branches. -/
theorem record_activity_streak_spec_witness :
    (((UserSession.init "w").record_activity ⟨100, 1, 2025⟩).streak = 1) ∧
    ((({ UserSession.init "w" with
          streak := 2,
          docs_processed := 3,
          last_activity_date := some ⟨100, 1, 2025⟩ } : UserSession).record_activity ⟨100, 1, 2025⟩).streak = 2) ∧
    ((({ UserSession.init "w" with
          streak := 2,
          docs_processed := 3,
          last_activity_date := some ⟨100, 1, 2025⟩ } : UserSession).record_activity ⟨101, 1, 2025⟩).streak = 3) ∧
    ((({ UserSession.init "w" with
          streak := 2,
          docs_processed := 3,
          last_activity_date := some ⟨100, 1, 2025⟩ } : UserSession).record_activity ⟨105, 1, 2025⟩).streak = 1) ∧
    ((({ UserSession.init "w" with
          streak := 2,
          docs_processed := 3,
          last_activity_date := some ⟨100, 1, 2025⟩ } : UserSession).record_activity ⟨105, 1, 2025⟩).docs_processed = 4) := by
  refine ⟨?_, ?_, ?_, ?_, ?_⟩
  · exact (record_activity_streak_spec (UserSession.init "w") ⟨100, 1, 2025⟩).2.2.1 rfl
  · exact (record_activity_streak_spec _ ⟨100, 1, 2025⟩).2.2.2.1 rfl
  · exact (record_activity_streak_spec _ ⟨101, 1, 2025⟩).2.2.2.2.1
      ⟨100, 1, 2025⟩ rfl (by decide) (by decide)
  · exact (record_activity_streak_spec _ ⟨105, 1, 2025⟩).2.2.2.2.2
      ⟨100, 1, 2025⟩ rfl (by decide) (by decide)
  · exact (record_activity_streak_spec _ ⟨105, 1, 2025⟩).1

/-- `answer_quiz` on an active quiz with a current question, in closed
form. -/
theorem answer_quiz_active_eq (s : UserSession) (ans : String)
    (hact : s.quiz_active = true)
    (hidx : s.quiz_index < s.quiz_questions.length) :
    s.answer_quiz ans =
      ({ s with
          quiz_score :=
            if pyUpper ans = pyUpper (s.quiz_questions.getD s.quiz_index
                { question := "", options := [], correct := "" }).correct
            then s.quiz_score + 1 else s.quiz_score
          quiz_index := s.quiz_index + 1
          quiz_active := decide (s.quiz_index + 1 < s.quiz_questions.length) },
       decide (pyUpper ans = pyUpper (s.quiz_questions.getD s.quiz_index
          { question := "", options := [], correct := "" }).correct),
       pyUpper (s.quiz_questions.getD s.quiz_index
          { question := "", options := [], correct := "" }).correct,
       decide (s.quiz_questions.length ≤ s.quiz_index + 1)) := by
  have hcond : ¬(s.quiz_active = false ∨
      s.quiz_questions.length ≤ s.quiz_index) := by
    push_neg
    exact ⟨by simp [hact], hidx⟩
  unfold UserSession.answer_quiz
  rw [if_neg hcond]
  set q := s.quiz_questions.getD s.quiz_index
    { question := "", options := [], correct := "" } with hqdef
  by_cases hc : pyUpper ans = pyUpper q.correct <;>
    by_cases hl : s.quiz_questions.length ≤ s.quiz_index + 1
  · have hlen : s.quiz_questions.length = s.quiz_index + 1 := by omega
    simp [hc, hl, hact, hlen, beq_iff_eq]
  · have hlen : s.quiz_index + 1 < s.quiz_questions.length := by omega
    simp [hc, hl, hact, hlen, beq_iff_eq, Nat.ne_of_gt hlen]
  · have hlen : s.quiz_questions.length = s.quiz_index + 1 := by omega
    simp [hc, hl, hact, hlen, beq_iff_eq]
  · have hlen : s.quiz_index + 1 < s.quiz_questions.length := by omega
    simp [hc, hl, hact, hlen, beq_iff_eq, Nat.ne_of_gt hlen]

/-- C2: on an active quiz with `quiz_index < len(quiz_questions)`,
`answer_quiz(letter)` reports correct, and increments `quiz_score` by
exactly 1, iff the letter equals the stored correct letter compared
case-insensitively; it always increments `quiz_index` by exactly 1, and
returns `is_last = true` and ends with `quiz_active = false` exactly
when the new index equals the question count.  If the quiz is not
active, or the index is at or past the end, the call returns
`(incorrect, "", is_last = true)` and leaves the session unchanged. -/
theorem answer_quiz_spec (s : UserSession) (ans : String) :
    (s.quiz_active = true → s.quiz_index < s.quiz_questions.length →
      (((s.answer_quiz ans).2.1 = true ↔
          pyUpper ans = pyUpper (s.quiz_questions.getD s.quiz_index
            { question := "", options := [], correct := "" }).correct) ∧
       ((s.answer_quiz ans).1.quiz_score =
          if pyUpper ans = pyUpper (s.quiz_questions.getD s.quiz_index
              { question := "", options := [], correct := "" }).correct
          then s.quiz_score + 1 else s.quiz_score) ∧
       ((s.answer_quiz ans).1.quiz_index = s.quiz_index + 1) ∧
       ((s.answer_quiz ans).2.2.2 = true ↔
          s.quiz_index + 1 = s.quiz_questions.length) ∧
       ((s.answer_quiz ans).1.quiz_active = false ↔
          (s.answer_quiz ans).2.2.2 = true))) ∧
    ((s.quiz_active = false ∨ s.quiz_questions.length ≤ s.quiz_index) →
      s.answer_quiz ans = (s, false, "", true)) := by
  constructor
  · intro hact hidx
    rw [answer_quiz_active_eq s ans hact hidx]
    refine ⟨?_, ?_, ?_, ?_, ?_⟩ <;>
      simp only [decide_eq_true_eq, decide_eq_false_iff_not]
    · omega
    · omega
  · intro h
    unfold UserSession.answer_quiz
    rw [if_pos h]

/-- Witness for `answer_quiz_spec`: a 1-question active quiz answered
with the lowercase form of the stored correct letter `"B"`, and a stale
call on a fresh (inactive) session. -/
theorem answer_quiz_spec_witness :
    (({ UserSession.init "u" with
          quiz_questions := [{ question := "Q1",
                               options := ["A) 1", "B) 2", "C) 3"],
                               correct := "B" }],
          quiz_score := 5,
          quiz_active := true } : UserSession).answer_quiz "b").1.quiz_score
        = 6 ∧
    (({ UserSession.init "u" with
          quiz_questions := [{ question := "Q1",
                               options := ["A) 1", "B) 2", "C) 3"],
                               correct := "B" }],
          quiz_score := 5,
          quiz_active := true } : UserSession).answer_quiz "b").2.2.2 = true ∧
    (UserSession.init "v").answer_quiz "a" =
      (UserSession.init "v", false, "", true) := by
  refine ⟨?_, ?_, ?_⟩
  · have h := ((answer_quiz_spec ({ UserSession.init "u" with
      quiz_questions := [{ question := "Q1",
                           options := ["A) 1", "B) 2", "C) 3"],
                           correct := "B" }],
      quiz_score := 5,
      quiz_active := true } : UserSession) "b").1 rfl (by decide)).2.1
    rw [h, if_pos (by decide)]
  · exact ((answer_quiz_spec ({ UserSession.init "u" with
      quiz_questions := [{ question := "Q1",
                           options := ["A) 1", "B) 2", "C) 3"],
                           correct := "B" }],
      quiz_score := 5,
      quiz_active := true } : UserSession) "b").1 rfl
        (by decide)).2.2.2.1.mpr (by decide)
  · exact (answer_quiz_spec (UserSession.init "v") "a").2 (Or.inl rfl)

/-- C3: with `monthly_limit = 2`, a zeroed counter and three distinct
not-yet-counted users messaging on the same calendar day inside the
tracker's current period: the first two `is_allowed` calls return true
and each increments `conversation_count` by 1, the third distinct
user's call returns false and mutates nothing, and a repeated call from
an already-counted user the same day returns true and mutates nothing
(one user consumes one slot per day). -/
theorem conversation_tracker_quota_spec
    (t : ConversationTracker) (a b c : String) (today : PyDate)
    (hlim : t.monthly_limit = 2) (hcount : t.conversation_count = 0)
    (hm : today.month = t.current_month) (hy : today.year = t.current_year)
    (ha : t.daily_users a = none) (hb : t.daily_users b = none)
    (hc : t.daily_users c = none)
    (hab : a ≠ b) (hac : a ≠ c) (hbc : b ≠ c) :
    ((t.is_allowed a today).2 = true) ∧
    ((t.is_allowed a today).1.conversation_count = 1) ∧
    (((t.is_allowed a today).1.is_allowed b today).2 = true) ∧
    (((t.is_allowed a today).1.is_allowed b today).1.conversation_count = 2) ∧
    ((((t.is_allowed a today).1.is_allowed b today).1.is_allowed c today).2 =
      false) ∧
    ((((t.is_allowed a today).1.is_allowed b today).1.is_allowed c today).1 =
      ((t.is_allowed a today).1.is_allowed b today).1) ∧
    ((((t.is_allowed a today).1.is_allowed b today).1.is_allowed a today).2 =
      true) ∧
    ((((t.is_allowed a today).1.is_allowed b today).1.is_allowed a today).1 =
      ((t.is_allowed a today).1.is_allowed b today).1) := by
  have hreset : t.reset_if_new_month today = t := by
    unfold ConversationTracker.reset_if_new_month
    rw [if_neg]
    push_neg
    exact ⟨hm, hy⟩
  have e1 : t.is_allowed a today =
      ({ t with
          daily_users := updMap t.daily_users a today,
          conversation_count := t.conversation_count + 1 }, true) := by
    simp [ConversationTracker.is_allowed, hreset, ha, hlim, hcount]
  have e2 : (t.is_allowed a today).1.is_allowed b today =
      ({ t with
          daily_users := updMap (updMap t.daily_users a today) b today,
          conversation_count := t.conversation_count + 2 }, true) := by
    rw [e1]
    simp [ConversationTracker.is_allowed, ConversationTracker.reset_if_new_month,
          hm, hy, updMap, Ne.symm hab, hb, hlim, hcount]
  have e3 : ((t.is_allowed a today).1.is_allowed b today).1.is_allowed c today =
      (((t.is_allowed a today).1.is_allowed b today).1, false) := by
    rw [e2]
    simp [ConversationTracker.is_allowed, ConversationTracker.reset_if_new_month,
          hm, hy, updMap, Ne.symm hac, Ne.symm hbc, hc, hlim, hcount]
  have e4 : ((t.is_allowed a today).1.is_allowed b today).1.is_allowed a today =
      (((t.is_allowed a today).1.is_allowed b today).1, true) := by
    rw [e2]
    simp [ConversationTracker.is_allowed, ConversationTracker.reset_if_new_month,
          hm, hy, updMap, hab, hlim, hcount]
  refine ⟨?_, ?_, ?_, ?_, ?_, ?_, ?_, ?_⟩
  · rw [e1]
  · rw [e1, hcount]
  · rw [e2]
  · rw [e2, hcount]
  · rw [e3]
  · rw [e3]
  · rw [e4]
  · rw [e4]

/-- A concrete quota tracker at the start of a period, with
`monthly_limit = 2` (the C3 scenario), used by the witness below. -/
def tracker0 : ConversationTracker :=
  { monthly_limit := 2
    current_month := 5
    current_year := 2025
    daily_users := fun _ => none
    conversation_count := 0 }

/-- A concrete calendar day inside `tracker0`'s period. -/
def day0 : PyDate := ⟨739000, 5, 2025⟩

/-- Witness for `conversation_tracker_quota_spec` at a concrete tracker
and users: the third distinct user is denied and the repeat caller is
allowed without mutation. -/
theorem conversation_tracker_quota_spec_witness :
    ((((tracker0.is_allowed "a" day0).1.is_allowed "b" day0).1.is_allowed
        "c" day0).2 = false) ∧
    ((((tracker0.is_allowed "a" day0).1.is_allowed "b" day0).1.is_allowed
        "a" day0).2 = true) ∧
    ((((tracker0.is_allowed "a" day0).1.is_allowed "b" day0).1.is_allowed
        "a" day0).1 =
      ((tracker0.is_allowed "a" day0).1.is_allowed "b" day0).1) := by
  have h := conversation_tracker_quota_spec tracker0 "a" "b" "c" day0
    rfl rfl rfl rfl rfl rfl rfl (by decide) (by decide) (by decide)
  exact ⟨h.2.2.2.2.1, h.2.2.2.2.2.2.1, h.2.2.2.2.2.2.2⟩

/-- First call for a user: a window opens with count 1 and the call is
allowed. -/
theorem is_allowed_fresh (rl : RateLimiter) (u : String) (now : Int)
    (h : rl.store u = none) :
    rl.is_allowed u now =
      ({ rl with store := updMap rl.store u (1, now) }, true) := by
  unfold RateLimiter.is_allowed
  rw [h]

/-- In-window call below the limit: the count increments, the window
start is kept, and the call is allowed. -/
theorem is_allowed_below_limit (rl : RateLimiter) (u : String) (now : Int)
    (c : Nat) (t0 : Int) (h : rl.store u = some (c, t0))
    (hw : ¬ rl.window_seconds < now - t0) (hc : c < rl.limit) :
    rl.is_allowed u now =
      ({ rl with store := updMap rl.store u (c + 1, t0) }, true) := by
  unfold RateLimiter.is_allowed
  rw [h]
  simp [hw, hc]

/-- In-window call at the limit: denied, and the limiter is returned
unchanged. -/
theorem is_allowed_at_limit (rl : RateLimiter) (u : String) (now : Int)
    (c : Nat) (t0 : Int) (h : rl.store u = some (c, t0))
    (hw : ¬ rl.window_seconds < now - t0) (hc : ¬ c < rl.limit) :
    rl.is_allowed u now = (rl, false) := by
  unfold RateLimiter.is_allowed
  rw [h]
  simp [hw, hc]

/-- Call after the window expired: a new window opens with count 1 and
the call is allowed. -/
theorem is_allowed_expired (rl : RateLimiter) (u : String) (now : Int)
    (c : Nat) (t0 : Int) (h : rl.store u = some (c, t0))
    (hw : rl.window_seconds < now - t0) :
    rl.is_allowed u now =
      ({ rl with store := updMap rl.store u (1, now) }, true) := by
  unfold RateLimiter.is_allowed
  rw [h]
  simp [hw]

/-- C4: for one user and a limiter with `limit = 5`,
`window_seconds = 3600` and no existing window for that user, five
`is_allowed` calls whose times fall within the window opened by the
first call all return true, a sixth call within the same window returns
false (and changes nothing), and a call after the window has elapsed
(`now − windowStart > windowDuration`) returns true and starts a new
window with count reset to 1. -/
theorem rate_limiter_window_spec (rl : RateLimiter) (u : String)
    (t1 t2 t3 t4 t5 t6 t7 : Int)
    (hlim : rl.limit = 5) (hwin : rl.window_seconds = 3600)
    (hs : rl.store u = none)
    (h2 : t2 - t1 ≤ 3600) (h3 : t3 - t1 ≤ 3600) (h4 : t4 - t1 ≤ 3600)
    (h5 : t5 - t1 ≤ 3600) (h6 : t6 - t1 ≤ 3600) (h7 : 3600 < t7 - t1) :
    let r1 := rl.is_allowed u t1
    let r2 := r1.1.is_allowed u t2
    let r3 := r2.1.is_allowed u t3
    let r4 := r3.1.is_allowed u t4
    let r5 := r4.1.is_allowed u t5
    let r6 := r5.1.is_allowed u t6
    let r7 := r6.1.is_allowed u t7
    r1.2 = true ∧ r2.2 = true ∧ r3.2 = true ∧ r4.2 = true ∧ r5.2 = true ∧
    r6.2 = false ∧ r6.1 = r5.1 ∧ r7.2 = true ∧ r7.1.store u = some (1, t7) := by
  have e1 := is_allowed_fresh rl u t1 hs
  set rl1 : RateLimiter :=
    { rl with store := updMap rl.store u (1, t1) } with hrl1
  have s1 : rl1.store u = some (1, t1) := by simp [hrl1, updMap]
  have e2 := is_allowed_below_limit rl1 u t2 1 t1 s1
    (by simp [hrl1, hwin]; omega) (by simp [hrl1, hlim])
  set rl2 : RateLimiter :=
    { rl1 with store := updMap rl1.store u (2, t1) } with hrl2
  have s2 : rl2.store u = some (2, t1) := by simp [hrl2, updMap]
  have e3 := is_allowed_below_limit rl2 u t3 2 t1 s2
    (by simp [hrl2, hrl1, hwin]; omega) (by simp [hrl2, hrl1, hlim])
  set rl3 : RateLimiter :=
    { rl2 with store := updMap rl2.store u (3, t1) } with hrl3
  have s3 : rl3.store u = some (3, t1) := by simp [hrl3, updMap]
  have e4 := is_allowed_below_limit rl3 u t4 3 t1 s3
    (by simp [hrl3, hrl2, hrl1, hwin]; omega)
    (by simp [hrl3, hrl2, hrl1, hlim])
  set rl4 : RateLimiter :=
    { rl3 with store := updMap rl3.store u (4, t1) } with hrl4
  have s4 : rl4.store u = some (4, t1) := by simp [hrl4, updMap]
  have e5 := is_allowed_below_limit rl4 u t5 4 t1 s4
    (by simp [hrl4, hrl3, hrl2, hrl1, hwin]; omega)
    (by simp [hrl4, hrl3, hrl2, hrl1, hlim])
  set rl5 : RateLimiter :=
    { rl4 with store := updMap rl4.store u (5, t1) } with hrl5
  have s5 : rl5.store u = some (5, t1) := by simp [hrl5, updMap]
  have e6 := is_allowed_at_limit rl5 u t6 5 t1 s5
    (by simp [hrl5, hrl4, hrl3, hrl2, hrl1, hwin]; omega)
    (by simp [hrl5, hrl4, hrl3, hrl2, hrl1, hlim])
  have e7 := is_allowed_expired rl5 u t7 5 t1 s5
    (by simp [hrl5, hrl4, hrl3, hrl2, hrl1, hwin]; omega)
  refine ⟨?_, ?_, ?_, ?_, ?_, ?_, ?_, ?_, ?_⟩ <;>
    simp only [e1, e2, e3, e4, e5, e6, e7]
  simp [updMap]

/-- A fresh document rate limiter with the production parameters
(`limit = 5`, `window_seconds = 3600`), for the witnesses below. -/
def rlFresh : RateLimiter :=
  { limit := 5, window_seconds := 3600, store := fun _ => none }

/-- Witness for `rate_limiter_window_spec`: the concrete limiter
`rlFresh` and call times 0, 600, ..., 3000 within the hour, then 4000
after it. -/
theorem rate_limiter_window_spec_witness :
    let r1 := rlFresh.is_allowed "u" 0
    let r2 := r1.1.is_allowed "u" 600
    let r3 := r2.1.is_allowed "u" 1200
    let r4 := r3.1.is_allowed "u" 1800
    let r5 := r4.1.is_allowed "u" 2400
    let r6 := r5.1.is_allowed "u" 3000
    let r7 := r6.1.is_allowed "u" 4000
    r1.2 = true ∧ r2.2 = true ∧ r3.2 = true ∧ r4.2 = true ∧ r5.2 = true ∧
    r6.2 = false ∧ r6.1 = r5.1 ∧ r7.2 = true ∧
    r7.1.store "u" = some (1, 4000) := by
  exact rate_limiter_window_spec rlFresh "u" 0 600 1200 1800 2400 3000 4000
    rfl rfl rfl (by decide) (by decide) (by decide) (by decide) (by decide)
    (by decide)

/-- C10: whenever the rate limiter denies a request, the stored
per-user state is left completely unchanged (a denied call neither
consumes a slot nor moves the window), and a call whose time is past
the end of the stored window (`now − windowStart > windowDuration`)
always succeeds, no matter how many denials preceded it. -/
theorem rate_limiter_deny_frame (rl : RateLimiter) (u : String) (now : Int) :
    ((rl.is_allowed u now).2 = false → (rl.is_allowed u now).1 = rl) ∧
    (∀ (c : Nat) (t0 now2 : Int), rl.store u = some (c, t0) →
      rl.window_seconds < now2 - t0 → (rl.is_allowed u now2).2 = true) := by
  constructor
  · intro hfalse
    unfold RateLimiter.is_allowed at hfalse ⊢
    rcases h : rl.store u with _ | ⟨c, t0⟩
    · rw [h] at hfalse
      simp at hfalse
    · dsimp only at hfalse ⊢
      split_ifs at hfalse ⊢ <;> simp_all
  · intro c t0 now2 h hw
    rw [is_allowed_expired rl u now2 c t0 h hw]

/-- A rate limiter whose user `"u"` already has a full window
(count 5 starting at time 0), for the C10 witness. -/
def rlAtLimit : RateLimiter :=
  { limit := 5, window_seconds := 3600,
    store := fun q => if q = "u" then some (5, 0) else none }

/-- Witness for `rate_limiter_deny_frame`: at `rlAtLimit`, the denied
in-window call at time 10 leaves the limiter unchanged, and the call at
time 4000 (past the window) succeeds. -/
theorem rate_limiter_deny_frame_witness :
    (rlAtLimit.is_allowed "u" 10).1 = rlAtLimit ∧
    (rlAtLimit.is_allowed "u" 4000).2 = true := by
  constructor
  · exact (rate_limiter_deny_frame rlAtLimit "u" 10).1 (by decide)
  · exact (rate_limiter_deny_frame rlAtLimit "u" 10).2 5 0 4000 (by decide)
      (by decide)

/-- A sequence of `add_message` calls, folded over the session. -/
def add_message_seq (s : UserSession) (msgs : List Msg) : UserSession :=
  msgs.foldl (fun t m => t.add_message m.role m.content) s

/-- `add_message` never changes the history bound. -/
theorem add_message_max_history (s : UserSession) (role content : String) :
    (s.add_message role content).max_history = s.max_history := by
  simp only [UserSession.add_message]
  split <;> rfl

/-- The history after one `add_message`, uniformly: the appended list
with everything before its last `max_history` entries dropped. -/
theorem add_message_history (s : UserSession) (role content : String) :
    (s.add_message role content).chat_history =
      (s.chat_history ++ [({ role := role, content := content } : Msg)]).drop
        (s.chat_history.length + 1 - s.max_history) := by
  simp only [UserSession.add_message]
  split
  · simp [List.length_append]
  · rename_i hnot
    have h0 : s.chat_history.length + 1 - s.max_history = 0 := by
      simp [List.length_append] at hnot
      omega
    simp [h0]

/-- Folding `add_message` over any message list, starting from any
in-bound history with the production bound 20, keeps exactly the most
recent 20 of the appended stream. -/
theorem add_message_seq_history (msgs : List Msg) : ∀ (s : UserSession),
    s.max_history = 20 → s.chat_history.length ≤ 20 →
    (add_message_seq s msgs).chat_history =
      (s.chat_history ++ msgs).drop
        (s.chat_history.length + msgs.length - 20) := by
  induction msgs with
  | nil =>
    intro s hmax hlen
    have h0 : s.chat_history.length - 20 = 0 := by omega
    simp [add_message_seq, h0]
  | cons m ms ih =>
    intro s hmax hlen
    have hstep : add_message_seq s (m :: ms) =
        add_message_seq (s.add_message m.role m.content) ms := rfl
    have hmax2 : (s.add_message m.role m.content).max_history = 20 := by
      rw [add_message_max_history, hmax]
    have hme : ({ role := m.role, content := m.content } : Msg) = m := rfl
    have hhist : (s.add_message m.role m.content).chat_history =
        (s.chat_history ++ [m]).drop (s.chat_history.length + 1 - 20) := by
      rw [add_message_history, hmax, hme]
    have hlen2 : (s.add_message m.role m.content).chat_history.length ≤ 20 := by
      rw [hhist]
      simp [List.length_drop]
      omega
    rw [hstep, ih _ hmax2 hlen2, hhist]
    rw [← List.drop_append_of_le_length (by simp [List.length_append]; omega),
        List.drop_drop, List.append_assoc, List.singleton_append]
    congr 1
    simp [List.length_drop, List.length_append]
    omega

/-- C5: starting from a fresh session, after any sequence of `n`
`add_message` calls the chat history is exactly the most recent
`min(n, 20)` appended messages, oldest evicted first, in their original
relative order (the suffix of the appended stream). -/
theorem chat_history_fifo_bound (phone : String) (msgs : List Msg) :
    (add_message_seq (UserSession.init phone) msgs).chat_history =
      msgs.drop (msgs.length - 20) ∧
    (add_message_seq (UserSession.init phone) msgs).chat_history.length =
      min msgs.length 20 := by
  have h := add_message_seq_history msgs (UserSession.init phone) rfl
    (by simp [UserSession.init])
  have h2 : (add_message_seq (UserSession.init phone) msgs).chat_history =
      msgs.drop (msgs.length - 20) := by
    simpa [UserSession.init] using h
  refine ⟨h2, ?_⟩
  rw [h2]
  simp [List.length_drop]
  omega

/-- C6: `start_flashcards` resets `flash_index = 0`,
`flash_revealed = false`, `flash_active = true`; `reveal_flashcard`
sets revealed without moving the index; `next_flashcard` increments the
index by exactly 1 and resets revealed, and (from a position inside the
deck, while active) ends with `flash_active = false` exactly when the
new index reaches the card count.  Concretely, starting with 7 cards,
revealing, advancing 6 times and then once more leaves no current card
and `flash_active = false` (while a card was still current after the
first 6 advances). -/
theorem flashcard_flow_spec (s : UserSession) (cards : List Card) :
    ((s.start_flashcards cards).flash_index = 0 ∧
     (s.start_flashcards cards).flash_revealed = false ∧
     (s.start_flashcards cards).flash_active = true) ∧
    (s.reveal_flashcard.flash_revealed = true ∧
     s.reveal_flashcard.flash_index = s.flash_index) ∧
    (s.next_flashcard.1.flash_index = s.flash_index + 1 ∧
     s.next_flashcard.1.flash_revealed = false) ∧
    (s.flash_index < s.flashcards.length → s.flash_active = true →
      (s.next_flashcard.1.flash_active = false ↔
        s.flash_index + 1 = s.flashcards.length)) ∧
    (cards.length = 7 →
      (let t0 := (s.start_flashcards cards).reveal_flashcard
       let t6 := ((((((t0.next_flashcard).1.next_flashcard).1.next_flashcard).1.next_flashcard).1.next_flashcard).1.next_flashcard).1
       let t7 := (t6.next_flashcard).1
       t7.get_current_flashcard = none ∧ t7.flash_active = false ∧
       t6.get_current_flashcard.isSome = true)) := by
  refine ⟨?_, ?_, ?_, ?_, ?_⟩
  · simp [UserSession.start_flashcards]
  · simp [UserSession.reveal_flashcard]
  · constructor <;>
      (simp only [UserSession.next_flashcard]; split <;> rfl)
  · intro hidx hact
    simp only [UserSession.next_flashcard]
    split
    · rename_i hle
      simp
      omega
    · rename_i hgt
      simp [hact]
      omega
  · intro h7
    simp [UserSession.start_flashcards, UserSession.reveal_flashcard,
          UserSession.next_flashcard, UserSession.get_current_flashcard, h7,
          List.getElem?_eq_none_iff]

/-- A concrete deck of 7 flashcards for the C6 witness. -/
def deck7 : List Card :=
  [⟨"f1", "b1"⟩, ⟨"f2", "b2"⟩, ⟨"f3", "b3"⟩, ⟨"f4", "b4"⟩,
   ⟨"f5", "b5"⟩, ⟨"f6", "b6"⟩, ⟨"f7", "b7"⟩]

/-- A session sitting on the last card of `deck7`, for the C6 witness. -/
def flashSession : UserSession :=
  { UserSession.init "u" with
    flashcards := deck7
    flash_index := 6
    flash_active := true }

/-- Witness for `flashcard_flow_spec`: advancing from the last card of
the concrete 7-card deck deactivates the deck, and the full 7-card
scenario from a fresh session ends with no current card. -/
theorem flashcard_flow_spec_witness :
    (flashSession.next_flashcard.1.flash_active = false ↔ 6 + 1 = 7) ∧
    (let t0 := ((UserSession.init "u").start_flashcards deck7).reveal_flashcard
     let t6 := ((((((t0.next_flashcard).1.next_flashcard).1.next_flashcard).1.next_flashcard).1.next_flashcard).1.next_flashcard).1
     let t7 := (t6.next_flashcard).1
     t7.get_current_flashcard = none ∧ t7.flash_active = false ∧
     t6.get_current_flashcard.isSome = true) := by
  constructor
  · exact (flashcard_flow_spec flashSession deck7).2.2.2.1 (by decide) rfl
  · exact (flashcard_flow_spec (UserSession.init "u") deck7).2.2.2.2 (by decide)

/-- Looking a user up after an `update`: the stored session for that
user, the previous view for everyone else. -/
theorem getSession_update (m : SMgr) (p q : String) (u : UserSession) :
    (m.update p u).getSession q = if q = p then u else m.getSession q := by
  unfold SMgr.update SMgr.getSession updMap
  split <;> rfl

/-- C7: `store_document` always resets the cached chunks to `none`
(while storing the new reference and filename), `store_chunks` installs
exactly the given chunks, and every other session operation — message
append, history clear, language change, quiz start/answer, flashcard
start/reveal/advance, activity recording, and the manager's first-visit
check — leaves the cached chunks untouched, so chunks cached for an
earlier document are never served for a newly stored one and a second
task on the same document reuses the cache. -/
theorem store_document_clears_chunks
    (s : UserSession) (m : SMgr) (p q mid fn role content lang ans : String)
    (chunks : List String) (qs : List QuizQ) (cards : List Card)
    (d : PyDate) :
    (s.store_document mid fn).doc_text_chunks = none ∧
    (s.store_document mid fn).media_id = some mid ∧
    (s.store_document mid fn).filename = some fn ∧
    (s.store_chunks chunks).doc_text_chunks = some chunks ∧
    (s.add_message role content).doc_text_chunks = s.doc_text_chunks ∧
    s.clear_history.doc_text_chunks = s.doc_text_chunks ∧
    (s.set_language lang).doc_text_chunks = s.doc_text_chunks ∧
    (s.start_quiz qs).doc_text_chunks = s.doc_text_chunks ∧
    (s.answer_quiz ans).1.doc_text_chunks = s.doc_text_chunks ∧
    (s.start_flashcards cards).doc_text_chunks = s.doc_text_chunks ∧
    s.reveal_flashcard.doc_text_chunks = s.doc_text_chunks ∧
    s.next_flashcard.1.doc_text_chunks = s.doc_text_chunks ∧
    (s.record_activity d).doc_text_chunks = s.doc_text_chunks ∧
    (((m.is_first_visit p).1.getSession q).doc_text_chunks =
      (m.getSession q).doc_text_chunks) := by
  refine ⟨rfl, rfl, rfl, rfl, ?_, rfl, rfl, rfl, ?_, rfl, rfl, ?_, ?_, ?_⟩
  · simp only [UserSession.add_message]
    split <;> rfl
  · simp only [UserSession.answer_quiz]
    split_ifs <;> rfl
  · simp only [UserSession.next_flashcard]
    split <;> rfl
  · rw [record_activity_eq]
  · simp only [SMgr.is_first_visit]
    split <;> (rw [getSession_update]; split <;> simp_all)

/-- A `withSession` step whose body keeps `first_visit` also keeps
every user's first-visit flag as seen through `getSession`. -/
theorem getSession_withSession_first_visit (m : SMgr) (p q : String)
    (f : UserSession → UserSession)
    (hf : ∀ u, (f u).first_visit = u.first_visit) :
    ((m.withSession p f).getSession q).first_visit =
      (m.getSession q).first_visit := by
  unfold SMgr.withSession
  rw [getSession_update]
  split
  · rename_i h
    rw [hf, h]
  · rfl

/-- `add_message` does not touch `first_visit`. -/
theorem add_message_first_visit (s : UserSession) (role content : String) :
    (s.add_message role content).first_visit = s.first_visit := by
  simp only [UserSession.add_message]
  split <;> rfl

/-- `answer_quiz` does not touch `first_visit`. -/
theorem answer_quiz_first_visit (s : UserSession) (ans : String) :
    (s.answer_quiz ans).1.first_visit = s.first_visit := by
  simp only [UserSession.answer_quiz]
  split_ifs <;> rfl

/-- `next_flashcard` does not touch `first_visit`. -/
theorem next_flashcard_first_visit (s : UserSession) :
    s.next_flashcard.1.first_visit = s.first_visit := by
  simp only [UserSession.next_flashcard]
  split <;> rfl

/-- `record_activity` does not touch `first_visit`. -/
theorem record_activity_first_visit (s : UserSession) (d : PyDate) :
    (s.record_activity d).first_visit = s.first_visit := by
  rw [record_activity_eq]

/-- C8: the welcome trigger fires exactly once per user.  A user absent
from the manager reads as first-visit (sessions are created with the
flag set); `is_first_visit` returns exactly the user's current flag and
always leaves it false afterwards; and every other manager operation —
for any target user `q`, including `q = p` — preserves user `p`'s flag.
Hence the first check for a user returns true and every later check
returns false for the process lifetime. -/
theorem is_first_visit_one_shot
    (p q mid fn role content lang ans : String) (chunks : List String)
    (qs : List QuizQ) (cards : List Card) (d : PyDate) (m : SMgr) :
    ((SMgr.empty.getSession p).first_visit = true) ∧
    ((m.is_first_visit p).2 = (m.getSession p).first_visit) ∧
    (((m.is_first_visit p).1.getSession p).first_visit = false) ∧
    (((m.store_document q mid fn).getSession p).first_visit =
      (m.getSession p).first_visit) ∧
    (((m.store_chunks q chunks).getSession p).first_visit =
      (m.getSession p).first_visit) ∧
    (((m.set_language q lang).getSession p).first_visit =
      (m.getSession p).first_visit) ∧
    (((m.add_message q role content).getSession p).first_visit =
      (m.getSession p).first_visit) ∧
    (((m.clear_history q).getSession p).first_visit =
      (m.getSession p).first_visit) ∧
    (((m.start_quiz q qs).getSession p).first_visit =
      (m.getSession p).first_visit) ∧
    (((m.answer_quiz q ans).1.getSession p).first_visit =
      (m.getSession p).first_visit) ∧
    (((m.start_flashcards q cards).getSession p).first_visit =
      (m.getSession p).first_visit) ∧
    (((m.reveal_flashcard q).getSession p).first_visit =
      (m.getSession p).first_visit) ∧
    (((m.next_flashcard q).1.getSession p).first_visit =
      (m.getSession p).first_visit) ∧
    (((m.record_activity q d).getSession p).first_visit =
      (m.getSession p).first_visit) := by
  refine ⟨rfl, ?_, ?_, ?_, ?_, ?_, ?_, ?_, ?_, ?_, ?_, ?_, ?_, ?_⟩
  · simp only [SMgr.is_first_visit]
    split <;> simp_all
  · simp only [SMgr.is_first_visit]
    split <;> (rw [getSession_update]; split <;> simp_all)
  · exact getSession_withSession_first_visit m q p _ (fun u => rfl)
  · exact getSession_withSession_first_visit m q p _ (fun u => rfl)
  · exact getSession_withSession_first_visit m q p _ (fun u => rfl)
  · exact getSession_withSession_first_visit m q p _
      (fun u => add_message_first_visit u role content)
  · exact getSession_withSession_first_visit m q p _ (fun u => rfl)
  · exact getSession_withSession_first_visit m q p _ (fun u => rfl)
  · exact getSession_withSession_first_visit m q p _
      (fun u => answer_quiz_first_visit u ans)
  · exact getSession_withSession_first_visit m q p _ (fun u => rfl)
  · exact getSession_withSession_first_visit m q p _ (fun u => rfl)
  · exact getSession_withSession_first_visit m q p _
      (fun u => next_flashcard_first_visit u)
  · exact getSession_withSession_first_visit m q p _
      (fun u => record_activity_first_visit u d)

/-- C9: `clear_history` empties only that user's chat history — every
other field of that session (language, document reference and filename,
cached chunks, quiz state, flashcard state, streak fields, first-visit
flag) is kept, and every other user's stored session is untouched. -/
theorem clear_history_frame (m : SMgr) (phone : String) (u : UserSession)
    (h : m phone = some u) :
    (m.clear_history phone) phone = some { u with chat_history := [] } ∧
    ∀ q, q ≠ phone → (m.clear_history phone) q = m q := by
  constructor
  · unfold SMgr.clear_history SMgr.withSession SMgr.update updMap
      SMgr.getSession UserSession.clear_history
    simp [h]
  · intro q hq
    unfold SMgr.clear_history SMgr.withSession SMgr.update updMap
    simp [hq]

/-- The session of user `"alice"` in the C9 witness: nonempty chat
history and nontrivial values in the fields that must survive. -/
def uAlice : UserSession :=
  { UserSession.init "alice" with
    chat_history := [⟨"user", "hi"⟩, ⟨"assistant", "hello"⟩]
    language := "French"
    doc_text_chunks := some ["chunk1"]
    streak := 4
    docs_processed := 9
    first_visit := false }

/-- The session of user `"bob"` in the C9 witness. -/
def uBob : UserSession :=
  { UserSession.init "bob" with chat_history := [⟨"user", "yo"⟩] }

/-- A manager holding the two concrete sessions above. -/
def mgr0 : SMgr := (SMgr.empty.update "alice" uAlice).update "bob" uBob

/-- Witness for `clear_history_frame`: clearing `"alice"`'s history in
the concrete manager empties only her history and leaves `"bob"`'s
stored session untouched. -/
theorem clear_history_frame_witness :
    (mgr0.clear_history "alice") "alice" =
      some { uAlice with chat_history := [] } ∧
    (mgr0.clear_history "alice") "bob" = mgr0 "bob" := by
  have h := clear_history_frame mgr0 "alice" uAlice (by decide)
  exact ⟨h.1, h.2 "bob" (by decide)⟩
